import Mathlib

/-!
Shallow embedding of `certomancer/integrations/animator.py` (the
request-routing and protocol-dispatch engine of the Certomancer mock PKI
animator), together with theorems settling the spec claims about it.

Conventions of the embedding:
* DER byte strings are `List Nat` (one entry per byte).
* asn1crypto objects are represented by the bytes their `.dump()` returns;
  `pem.armor(header, data)` is represented by the free constructor
  `Payload.pem header data`, which records exactly the header label and the
  bytes passed to the (external) armoring routine.
* Python exceptions reaching the dispatch boundary are the inductive
  `PyExc`; a function that may raise returns `Except PyExc _`.
* Timestamps are `Nat`; `datetime.now(tz=...)` is an explicit `now`
  parameter threaded into each call.
* The PKI-data collaborator (`pki_arch.service_registry`) is a structure of
  functions, and the asn1crypto decoders are the structure `Asn1Codecs`.
-/

deriving instance DecidableEq for Except

namespace Certomancer

/-- DER-encoded byte strings, one `Nat` per byte. -/
abbrev Bytes := List Nat

/-- The exceptions that can reach `Animator.dispatch`'s `try` block:
the two Certomancer domain errors (from `certomancer.registry` /
`certomancer.services`), werkzeug `HTTPException`s carried by their HTTP
status code, and any other Python exception (e.g. the `ValueError` that
asn1crypto's `load` raises on malformed DER), carried by its message. -/
inductive PyExc where
  | certomancerObjectNotFound (msg : String)
  | certomancerServiceError (msg : String)
  | httpException (status : Nat)
  | otherError (msg : String)
deriving DecidableEq, Repr

/-- The body of a `werkzeug` response as the handlers build it:
raw DER bytes, the result of `pem.armor(header, bytes)`, or the stock
error page a `werkzeug.exceptions.HTTPException` renders. -/
inductive Payload where
  | der (bytes : Bytes)
  | pem (header : String) (bytes : Bytes)
  | errorPage (status : Nat)
deriving DecidableEq, Repr

/-- A `werkzeug.wrappers.Response` as produced by the animator:
body, mimetype and status code (`Response(...)` defaults to 200). -/
structure Response where
  body : Payload
  mimetype : String
  status : Nat
deriving DecidableEq, Repr

/-- The response returned by `return NotFound()` in `dispatch`. -/
def notFoundResp : Response := ⟨.errorPage 404, "text/html", 404⟩

/-- The response returned by `return InternalServerError()` in `dispatch`. -/
def internalServerErrorResp : Response := ⟨.errorPage 500, "text/html", 500⟩

/-- The response a pass-through `HTTPException` with the given status
renders (`except HTTPException as e: return e`). -/
def httpExcResp (status : Nat) : Response := ⟨.errorPage status, "text/html", status⟩

/-- `class ServiceType(enum.Enum)` from `animator.py`. -/
inductive ServiceType where
  | ocsp
  | crlRepo
  | tsa
  | certRepo
deriving DecidableEq, Repr

/-- `@dataclass(frozen=True) class Endpoint`: service type plus label. -/
structure Endpoint where
  serviceType : ServiceType
  label : String
deriving DecidableEq, Repr

/-- `ServiceType.endpoint(label)`. -/
def ServiceType.endpoint (st : ServiceType) (label : String) : Endpoint :=
  ⟨st, label⟩

/-- The URL path converters appearing in the generated rules:
the werkzeug default converter (`[^/]+`), the `int` converter (digits),
and the custom `LabelConverter` (`regex = "[^./]+"`). -/
inductive Converter where
  | default
  | int
  | label
deriving DecidableEq, Repr

/-- A token of a route pattern: either a literal stretch of path text or a
`<converter:name>` placeholder. This renders structurally the f-string
templates `service_rules` passes to `werkzeug.routing.Rule`. -/
inductive PatTok where
  | lit (s : String)
  | conv (c : Converter) (name : String)
deriving DecidableEq, Repr

/-- A value captured from the path (or supplied by a rule's `defaults`):
Python `None`, an `int`, or a string. -/
inductive PathValue where
  | vNone
  | vInt (n : Nat)
  | vStr (s : String)
deriving DecidableEq, Repr

/-- A `werkzeug.routing.Rule` as `service_rules` constructs it:
pattern, endpoint, allowed methods, and `defaults`. -/
structure Rule where
  pattern : List PatTok
  endpoint : Endpoint
  methods : List String
  defaults : List (String × PathValue) := []
deriving DecidableEq, Repr

/-- Static data of one OCSP/TSA/CRL service entry as consumed by
`service_rules` (`internal_url` and `label`). -/
structure ServiceInfo where
  internalUrl : String
  label : String
deriving DecidableEq, Repr

/-- Static data of one certificate repository entry:
`internal_url`, `label` and the `publish_issued_certs` flag. -/
structure CertRepoInfo where
  internalUrl : String
  label : String
  publishIssuedCerts : Bool
deriving DecidableEq, Repr

/-- The object `summon_responder` returns: `build_ocsp_response` maps a
decoded OCSP request to the bytes of `response.dump()`. -/
structure Responder where
  buildOcspResponse : Bytes → Except PyExc Bytes

/-- The object `summon_timestamper` returns: `request_tsa_response` maps a
decoded timestamp request to the bytes of `response.dump()`. -/
structure Timestamper where
  requestTsaResponse : Bytes → Except PyExc Bytes

/-- The service registry of a PKI architecture, as the animator consumes
it: the four catalog lists `service_rules` iterates over, plus the
collaborator calls the handlers make.  `getCrl label atTime number`
models `get_crl(label, at_time, number)`; the result is the DER dump of
the returned object. -/
structure ServiceRegistry where
  ocspResponders : List ServiceInfo
  timeStampingServices : List ServiceInfo
  crlRepos : List ServiceInfo
  certRepos : List CertRepoInfo
  summonResponder : String → Nat → Except PyExc Responder
  summonTimestamper : String → Nat → Except PyExc Timestamper
  getCrl : String → Option Nat → Option Nat → Except PyExc Bytes
  getCertFromRepo : String → Option String → Except PyExc (Option Bytes)

/-- `PKIArchitecture` as the animator consumes it. -/
structure PKIArchitecture where
  serviceRegistry : ServiceRegistry

/-- The asn1crypto decoders the handlers call; on malformed DER these
raise (asn1crypto raises a plain `ValueError`, modelled as
`PyExc.otherError`, but the model leaves the failure mode free). -/
structure Asn1Codecs where
  ocspRequestLoad : Bytes → Except PyExc Bytes
  timeStampReqLoad : Bytes → Except PyExc Bytes

/-- The rules the `service_rules` loop body yields for one CRL repository:
the latest-CRL rule (with `defaults={'crl_no': None}`) and the CRL-archive
rule, both `GET`, both on the same endpoint. -/
def crlRepoRules (repo : ServiceInfo) : List Rule :=
  [ { pattern := [.lit (repo.internalUrl ++ "/latest."), .conv .default "extension"],
      endpoint := ServiceType.crlRepo.endpoint repo.label,
      methods := ["GET"],
      defaults := [("crl_no", .vNone)] },
    { pattern := [.lit (repo.internalUrl ++ "/archive-"), .conv .int "crl_no",
                  .lit ".", .conv .default "extension"],
      endpoint := ServiceType.crlRepo.endpoint repo.label,
      methods := ["GET"] } ]

/-- The rules the `service_rules` loop body yields for one certificate
repository: the CA-certificate rule (with `defaults={'cert_label': None}`)
always, and the issued-certificate rule only if `publish_issued_certs`. -/
def certRepoRules (repo : CertRepoInfo) : List Rule :=
  { pattern := [.lit (repo.internalUrl ++ "/ca."), .conv .default "extension"],
    endpoint := ServiceType.certRepo.endpoint repo.label,
    methods := ["GET"],
    defaults := [("cert_label", .vNone)] } ::
  (if repo.publishIssuedCerts then
    [ { pattern := [.lit (repo.internalUrl ++ "/issued/"), .conv .label "cert_label",
                    .lit ".", .conv .default "extension"],
        endpoint := ServiceType.certRepo.endpoint repo.label,
        methods := ["GET"] } ]
   else [])

/-- `service_rules(services)`: the full rule list, in emission order
(OCSP, then TSA, then CRL repositories, then certificate repositories). -/
def service_rules (services : ServiceRegistry) : List Rule :=
  (services.ocspResponders.map fun info =>
    { pattern := [.lit info.internalUrl],
      endpoint := ServiceType.ocsp.endpoint info.label,
      methods := ["POST"] })
  ++ (services.timeStampingServices.map fun info =>
    { pattern := [.lit info.internalUrl],
      endpoint := ServiceType.tsa.endpoint info.label,
      methods := ["POST"] })
  ++ (services.crlRepos.flatMap crlRepoRules)
  ++ (services.certRepos.flatMap certRepoRules)

/-- Which characters a converter's regex admits: default `[^/]+`,
`int` `\d+`, `LabelConverter` `[^./]+`. -/
def convAllows : Converter → Char → Bool
  | .default, c => c != '/'
  | .int, c => c.isDigit
  | .label, c => c != '/' && c != '.'

/-- Numeric value of a digit run (how the `int` converter converts). -/
def digitsToNat (cs : List Char) : Nat :=
  cs.foldl (fun n c => 10 * n + (c.toNat - '0'.toNat)) 0

/-- The typed value a converter produces from its matched run. -/
def convValue : Converter → List Char → PathValue
  | .int, run => .vInt (digitsToNat run)
  | .default, run => .vStr (String.mk run)
  | .label, run => .vStr (String.mk run)

/-- Modelled from the spec: the Router's structural path matching
(§4.3) — the implementation delegates to `werkzeug.routing`, which is not
part of this repository.  Literal tokens must match exactly; a placeholder
captures the maximal nonempty run of characters its converter admits
("split exactly at the last viable boundary allowed by the Path
Converter"); the whole path must be consumed. -/
def matchToks : List PatTok → List Char → Option (List (String × PathValue))
  | [], [] => some []
  | [], _ :: _ => none
  | .lit s :: rest, cs =>
      if s.toList.isPrefixOf cs then matchToks rest (cs.drop s.toList.length)
      else none
  | .conv c name :: rest, cs =>
      let run := cs.takeWhile (convAllows c)
      if run.length = 0 then none
      else (matchToks rest (cs.drop run.length)).map
        (fun vs => (name, convValue c run) :: vs)

/-- Modelled from the spec: `Router.match` (§4.3) — only rules whose
method list contains the request's method are eligible; the first eligible
rule whose pattern matches the path wins; a rule's `defaults` fill in
parameters the pattern did not capture; if no rule matches, the router
fails with `NotFound` (HTTP 404). -/
def routerMatch (rules : List Rule) (method : String) (path : String) :
    Except PyExc (Endpoint × List (String × PathValue)) :=
  match rules with
  | [] => .error (.httpException 404)
  | r :: rest =>
    if method ∈ r.methods then
      match matchToks r.pattern path.toList with
      | some caps =>
          .ok (r.endpoint,
               caps ++ r.defaults.filter (fun kv => caps.all (fun c => c.1 != kv.1)))
      | none => routerMatch rest method path
    else routerMatch rest method path

/-- An inbound HTTP request as the animator sees it: method, path, and the
bytes `request.stream.read()` returns. -/
structure Request where
  method : String
  path : String
  body : Bytes
deriving DecidableEq, Repr

/-- The `Animator` object: `pki_arch`, `fixed_time` and the `url_map`
built by `__init__`. -/
structure Animator where
  pkiArch : PKIArchitecture
  fixedTime : Option Nat
  urlMap : List Rule

/-- `Animator.__init__(pki_arch, at_time)`: stores the architecture and
the fixed time and builds `url_map` from `service_rules`. -/
def mkAnimator (pkiArch : PKIArchitecture) (atTime : Option Nat) : Animator :=
  ⟨pkiArch, atTime, service_rules pkiArch.serviceRegistry⟩

/-- `Animator.at_time`: `self.fixed_time or datetime.now(tz=...)`
(a `datetime` is always truthy, so this is `getD`). -/
def atTime (fixedTime : Option Nat) (now : Nat) : Nat :=
  fixedTime.getD now

/-- `Animator.serve_ocsp_response`: summon the responder for the label at
the evaluation time, read the body, decode it as an `OCSPRequest`
(asn1crypto), build the OCSP response and wrap its dump. -/
def serveOcspResponse (codecs : Asn1Codecs) (a : Animator) (now : Nat)
    (request : Request) (label : String) : Except PyExc Response := do
  let ocspResp ← a.pkiArch.serviceRegistry.summonResponder label (atTime a.fixedTime now)
  let data := request.body
  let req ← codecs.ocspRequestLoad data
  let response ← ocspResp.buildOcspResponse req
  return ⟨.der response, "application/ocsp-response", 200⟩

/-- `Animator.serve_timestamp_response`: summon the timestamper for the
label at the evaluation time, read the body, decode it as a
`TimeStampReq` (asn1crypto), build the response and wrap its dump. -/
def serveTimestampResponse (codecs : Asn1Codecs) (a : Animator) (now : Nat)
    (request : Request) (label : String) : Except PyExc Response := do
  let tsa ← a.pkiArch.serviceRegistry.summonTimestamper label (atTime a.fixedTime now)
  let data := request.body
  let req ← codecs.timeStampReqLoad data
  let response ← tsa.requestTsaResponse req
  return ⟨.der response, "application/timestamp-reply", 200⟩

/-- `Animator.serve_crl`: validate the extension (else raise `NotFound`),
fetch the CRL by number or by evaluation time, dump it, PEM-armor with
header `'X509 CRL'` if requested, and wrap it with the chosen mimetype. -/
def serveCrl (a : Animator) (now : Nat) (label : String)
    (crlNo : Option Nat) (extension : String) : Except PyExc Response := do
  let (usePem, mime) ←
    if extension = "crl.pem" then
      pure (true, "application/x-pem-file")
    else if extension = "crl" then
      pure (false, "application/pkix-crl")
    else
      Except.error (.httpException 404)
  let crl ←
    match crlNo with
    | some no => a.pkiArch.serviceRegistry.getCrl label none (some no)
    | none => a.pkiArch.serviceRegistry.getCrl label (some (atTime a.fixedTime now)) none
  let data := if usePem then Payload.pem "X509 CRL" crl else Payload.der crl
  return ⟨data, mime, 200⟩

/-- `Animator.serve_cert`: validate the extension (else raise `NotFound`),
fetch the certificate from the repository (the CA's own when
`cert_label` is `None`), raise `NotFound` if the collaborator returns
`None`, dump it, PEM-armor with header `'certificate'` if requested. -/
def serveCert (a : Animator) (label : String)
    (certLabel : Option String) (extension : String) : Except PyExc Response := do
  let (usePem, mime) ←
    if extension = "cert.pem" then
      pure (true, "application/x-pem-file")
    else if extension = "crt" then
      pure (false, "application/pkix-cert")
    else
      Except.error (.httpException 404)
  let certOpt ← a.pkiArch.serviceRegistry.getCertFromRepo label certLabel
  match certOpt with
  | none => Except.error (.httpException 404)
  | some cert =>
    let data := if usePem then Payload.pem "certificate" cert else Payload.der cert
    return ⟨data, mime, 200⟩

/-- Look a parameter up among the matched values. -/
def lookupValue (vs : List (String × PathValue)) (k : String) : Option PathValue :=
  (vs.find? (fun kv => kv.1 == k)).map (·.2)

/-- The body of `dispatch`'s `try` block: match the request against the
url map (a failure there is raised inside the `try`), then invoke the
handler selected by the endpoint's service type, passing the captured
values as keyword arguments (a missing or ill-typed parameter would be a
Python `TypeError`). -/
def dispatchCore (codecs : Asn1Codecs) (a : Animator) (now : Nat)
    (request : Request) : Except PyExc Response := do
  let (endpoint, values) ← routerMatch a.urlMap request.method request.path
  match endpoint.serviceType with
  | .ocsp => serveOcspResponse codecs a now request endpoint.label
  | .tsa => serveTimestampResponse codecs a now request endpoint.label
  | .crlRepo =>
    match lookupValue values "crl_no", lookupValue values "extension" with
    | some .vNone, some (.vStr ext) => serveCrl a now endpoint.label none ext
    | some (.vInt no), some (.vStr ext) => serveCrl a now endpoint.label (some no) ext
    | _, _ => Except.error (.otherError "TypeError")
  | .certRepo =>
    match lookupValue values "cert_label", lookupValue values "extension" with
    | some .vNone, some (.vStr ext) => serveCert a endpoint.label none ext
    | some (.vStr cl), some (.vStr ext) => serveCert a endpoint.label (some cl) ext
    | _, _ => Except.error (.otherError "TypeError")

/-- Severity of a `logger` call made by `dispatch`. -/
inductive LogLevel where
  | info
  | error
deriving DecidableEq, Repr

/-- `Animator.dispatch`: run the `try` block and translate exceptions per
its `except` clauses — `CertomancerObjectNotFoundError` is logged at info
level and becomes `NotFound()` (404), `CertomancerServiceError` is logged
at error level and becomes `InternalServerError()` (500), an
`HTTPException` is returned as-is; any other exception propagates out of
`dispatch`.  The second component is the log written by `dispatch`. -/
def dispatch (codecs : Asn1Codecs) (a : Animator) (now : Nat)
    (request : Request) : Except PyExc Response × List (LogLevel × String) :=
  match dispatchCore codecs a now request with
  | .ok resp => (.ok resp, [])
  | .error (.certomancerObjectNotFound msg) => (.ok notFoundResp, [(.info, msg)])
  | .error (.certomancerServiceError msg) => (.ok internalServerErrorResp, [(.error, msg)])
  | .error (.httpException status) => (.ok (httpExcResp status), [])
  | .error e => (.error e, [])

/-- Modelled from the spec: configuration loading ("loading configuration,
binding one PKI architecture instance") — `CertomancerConfig` lives in
`certomancer.registry`, which is not among the sources; the spec only says
its failure is a fatal startup error.  A loaded configuration can produce
the PKI architecture named by a label. -/
structure CertomancerConfig where
  getPkiArch : String → Except PyExc PKIArchitecture

/-- Modelled from the spec: the bootstrap operations `LazyAnimator._load`
calls — `CertomancerConfig.from_file(cfg_file, key_dir)` is repo code not
among the sources, so it is an abstract fallible constructor here. -/
structure BootstrapOps where
  fromFile : String → String → Except PyExc CertomancerConfig

/-- `os.environ`, as an association list; a missing key raises `KeyError`. -/
def envGet (env : List (String × String)) (key : String) : Except PyExc String :=
  match env.find? (fun kv => kv.1 == key) with
  | some kv => .ok kv.2
  | none => .error (.otherError ("KeyError: " ++ key))

/-- `class LazyAnimator`: `__init__` sets `self.animator = None`. -/
structure LazyAnimator where
  animator : Option Animator

/-- `LazyAnimator._load`: if the animator is already set, return at once;
otherwise read the three environment variables, load the configuration,
bind the architecture, and store a freshly constructed `Animator`.  The
result is the new object state (Python mutates `self`; an exception leaves
`self.animator` as `None` and propagates). -/
def LazyAnimator.load (ops : BootstrapOps) (env : List (String × String))
    (la : LazyAnimator) : Except PyExc LazyAnimator :=
  match la.animator with
  | some _ => .ok la
  | none => do
    let cfgFile ← envGet env "CERTOMANCER_CONFIG"
    let keyDir ← envGet env "CERTOMANCER_KEY_DIR"
    let arch ← envGet env "CERTOMANCER_ARCH"
    let cfg ← ops.fromFile cfgFile keyDir
    let pkiArch ← cfg.getPkiArch arch
    return ⟨some (mkAnimator pkiArch none)⟩

/-! ### Concrete fixtures used by the witnesses -/

/-- Codecs whose decoders succeed, returning the decoded request as-is. -/
def codecs0 : Asn1Codecs := ⟨fun b => .ok b, fun b => .ok b⟩

/-- Codecs whose OCSP decoder fails the way asn1crypto does on malformed
DER: with a `ValueError` (not a Certomancer error, not an HTTP one). -/
def codecsBad : Asn1Codecs :=
  ⟨fun _ => .error (.otherError "ValueError"), fun b => .ok b⟩

/-- A registry with empty catalogs and all-succeeding collaborators. -/
def regBase : ServiceRegistry where
  ocspResponders := []
  timeStampingServices := []
  crlRepos := []
  certRepos := []
  summonResponder := fun _ _ => .ok ⟨fun _ => .ok [1]⟩
  summonTimestamper := fun _ _ => .ok ⟨fun _ => .ok [2]⟩
  getCrl := fun _ _ _ => .ok [3]
  getCertFromRepo := fun _ _ => .ok (some [4])

/-- One CRL repository entry. -/
def crlRepoMain : ServiceInfo := ⟨"/crls/main", "main"⟩

/-- Registry whose CRL collaborator raises the domain not-found error. -/
def regObjNotFound : ServiceRegistry :=
  { regBase with
    crlRepos := [crlRepoMain],
    getCrl := fun _ _ _ => .error (.certomancerObjectNotFound "no such crl") }

/-- Registry whose CRL collaborator raises the domain service error. -/
def regSvcError : ServiceRegistry :=
  { regBase with
    crlRepos := [crlRepoMain],
    getCrl := fun _ _ _ => .error (.certomancerServiceError "signing failed") }

/-- Registry with a CRL repository and an all-ok collaborator. -/
def regCrlOk : ServiceRegistry := { regBase with crlRepos := [crlRepoMain] }

/-- Registry with one OCSP responder whose responder object exists. -/
def regOcsp : ServiceRegistry :=
  { regBase with ocspResponders := [⟨"/test/ocsp", "o1"⟩] }

/-- Registry whose certificate collaborator reports "no such certificate"
as a null result. -/
def regCertNone : ServiceRegistry :=
  { regBase with getCertFromRepo := fun _ _ => .ok none }

/-- A certificate repository with issued-certificate publishing disabled. -/
def certRepoNoPub : CertRepoInfo := ⟨"/certs/r", "r", false⟩

/-- Registry with only that non-publishing certificate repository. -/
def regCertNoPub : ServiceRegistry :=
  { regBase with certRepos := [certRepoNoPub] }

/-- A GET request for the latest CRL in DER form. -/
def reqLatestCrl : Request := ⟨"GET", "/crls/main/latest.crl", []⟩

/-- A POST to the OCSP responder carrying malformed DER. -/
def reqOcspBad : Request := ⟨"POST", "/test/ocsp", [0]⟩

/-- Bootstrap operations that succeed and bind `regBase`. -/
def opsOk : BootstrapOps := ⟨fun _ _ => .ok ⟨fun _ => .ok ⟨regBase⟩⟩⟩

/-- An environment carrying the three required variables. -/
def envOk : List (String × String) :=
  [("CERTOMANCER_CONFIG", "certomancer.yml"),
   ("CERTOMANCER_KEY_DIR", "keys"),
   ("CERTOMANCER_ARCH", "testing-ca")]

/-- The `LazyAnimator` state after a successful first `_load` under
`opsOk` and `envOk`. -/
def laLoaded : LazyAnimator := ⟨some (mkAnimator ⟨regBase⟩ none)⟩

/-! ### Helper lemmas -/

/-- "The collaborator call never fails with a werkzeug `HTTPException`":
true of the real registry, whose failures are the Certomancer domain
errors (spec §6: collaborators fail with "object not found" or "service
error") or plain Python exceptions. -/
def NoHttpErr {α : Type} (x : Except PyExc α) : Prop :=
  ∀ st, x ≠ .error (.httpException st)

/-- The collaborator and codec calls the handlers can make never raise
werkzeug `HTTPException`s (they are not web code). -/
structure CollabNoHttp (reg : ServiceRegistry) (codecs : Asn1Codecs) : Prop where
  summonResponder : ∀ l t, NoHttpErr (reg.summonResponder l t)
  buildOcsp : ∀ l t r, reg.summonResponder l t = .ok r →
    ∀ b, NoHttpErr (r.buildOcspResponse b)
  summonTimestamper : ∀ l t, NoHttpErr (reg.summonTimestamper l t)
  buildTsa : ∀ l t r, reg.summonTimestamper l t = .ok r →
    ∀ b, NoHttpErr (r.requestTsaResponse b)
  getCrl : ∀ l a n, NoHttpErr (reg.getCrl l a n)
  getCert : ∀ l cl, NoHttpErr (reg.getCertFromRepo l cl)
  ocspLoad : ∀ b, NoHttpErr (codecs.ocspRequestLoad b)
  tspLoad : ∀ b, NoHttpErr (codecs.timeStampReqLoad b)

theorem routerMatch_error_404 (rules : List Rule) (method path : String) (e : PyExc)
    (h : routerMatch rules method path = .error e) : e = .httpException 404 := by
  induction rules with
  | nil =>
    simp only [routerMatch] at h
    exact (Except.error.inj h).symm
  | cons r rest ih =>
    simp only [routerMatch] at h
    by_cases hm : method ∈ r.methods
    · simp only [if_pos hm] at h
      cases hmt : matchToks r.pattern path.toList with
      | some caps => rw [hmt] at h; exact absurd h (by simp)
      | none => rw [hmt] at h; exact ih h
    · simp only [if_neg hm] at h
      exact ih h

theorem except_ok_of_bind {α β : Type} {x : Except PyExc α} {f : α → Except PyExc β} {b : β}
    (h : x >>= f = .ok b) : ∃ a, x = .ok a ∧ f a = .ok b := by
  cases x with
  | error e => simp [Bind.bind, Except.bind] at h
  | ok a => exact ⟨a, rfl, by simpa [Bind.bind, Except.bind] using h⟩

theorem except_error_of_bind {α β : Type} {x : Except PyExc α} {f : α → Except PyExc β} {e : PyExc}
    (h : x >>= f = .error e) : x = .error e ∨ ∃ a, x = .ok a ∧ f a = .error e := by
  cases x with
  | error e₀ =>
    left
    simpa [Bind.bind, Except.bind] using h
  | ok a =>
    right
    exact ⟨a, rfl, by simpa [Bind.bind, Except.bind] using h⟩

theorem serveOcsp_ok_status (codecs : Asn1Codecs) (a : Animator) (now : Nat)
    (request : Request) (label : String) (r : Response)
    (h : serveOcspResponse codecs a now request label = .ok r) : r.status = 200 := by
  unfold serveOcspResponse at h
  obtain ⟨resp, h1, h⟩ := except_ok_of_bind h
  obtain ⟨req, h2, h⟩ := except_ok_of_bind h
  obtain ⟨response, h3, h⟩ := except_ok_of_bind h
  simp only [pure, Except.pure, Except.ok.injEq] at h
  rw [← h]

theorem serveTsa_ok_status (codecs : Asn1Codecs) (a : Animator) (now : Nat)
    (request : Request) (label : String) (r : Response)
    (h : serveTimestampResponse codecs a now request label = .ok r) : r.status = 200 := by
  unfold serveTimestampResponse at h
  obtain ⟨tsa, h1, h⟩ := except_ok_of_bind h
  obtain ⟨req, h2, h⟩ := except_ok_of_bind h
  obtain ⟨response, h3, h⟩ := except_ok_of_bind h
  simp only [pure, Except.pure, Except.ok.injEq] at h
  rw [← h]

theorem serveCrl_ok_status (a : Animator) (now : Nat) (label : String)
    (crlNo : Option Nat) (extension : String) (r : Response)
    (h : serveCrl a now label crlNo extension = .ok r) : r.status = 200 := by
  unfold serveCrl at h
  by_cases e1 : extension = "crl.pem" <;> by_cases e2 : extension = "crl" <;>
    simp only [e1, e2, reduceIte, if_true, if_false, if_neg, if_pos] at h <;>
    obtain ⟨pm, h1, h⟩ := except_ok_of_bind h
  case pos => exact absurd (e1 ▸ e2) (by decide)
  all_goals first
  | exact absurd h1 (by simp)
  | (obtain ⟨usePem, mime⟩ := pm
     cases crlNo with
     | some no =>
       obtain ⟨crl, h2, h⟩ := except_ok_of_bind h
       simp only [pure, Except.pure, Except.ok.injEq] at h
       rw [← h]
     | none =>
       obtain ⟨crl, h2, h⟩ := except_ok_of_bind h
       simp only [pure, Except.pure, Except.ok.injEq] at h
       rw [← h])

theorem serveCert_ok_status (a : Animator) (label : String)
    (certLabel : Option String) (extension : String) (r : Response)
    (h : serveCert a label certLabel extension = .ok r) : r.status = 200 := by
  unfold serveCert at h
  by_cases e1 : extension = "cert.pem" <;> by_cases e2 : extension = "crt" <;>
    simp only [e1, e2, reduceIte, if_true, if_false, if_neg, if_pos] at h <;>
    obtain ⟨pm, h1, h⟩ := except_ok_of_bind h
  case pos => exact absurd (e1 ▸ e2) (by decide)
  all_goals first
  | exact absurd h1 (by simp)
  | (obtain ⟨usePem, mime⟩ := pm
     obtain ⟨certOpt, h2, h⟩ := except_ok_of_bind h
     cases certOpt with
     | none => simp at h
     | some cert =>
       simp only [pure, Except.pure, Except.ok.injEq] at h
       rw [← h])

theorem serveOcsp_no_http (codecs : Asn1Codecs) (a : Animator) (now : Nat)
    (request : Request) (label : String) (st : Nat)
    (hc : CollabNoHttp a.pkiArch.serviceRegistry codecs)
    (h : serveOcspResponse codecs a now request label = .error (.httpException st)) :
    False := by
  unfold serveOcspResponse at h
  rcases except_error_of_bind h with h | ⟨resp, h1, h⟩
  · exact hc.summonResponder _ _ _ h
  · rcases except_error_of_bind h with h | ⟨req, h2, h⟩
    · exact hc.ocspLoad _ _ h
    · rcases except_error_of_bind h with h | ⟨response, h3, h⟩
      · exact hc.buildOcsp _ _ _ h1 _ _ h
      · simp [pure, Except.pure] at h

theorem serveTsa_no_http (codecs : Asn1Codecs) (a : Animator) (now : Nat)
    (request : Request) (label : String) (st : Nat)
    (hc : CollabNoHttp a.pkiArch.serviceRegistry codecs)
    (h : serveTimestampResponse codecs a now request label = .error (.httpException st)) :
    False := by
  unfold serveTimestampResponse at h
  rcases except_error_of_bind h with h | ⟨tsa, h1, h⟩
  · exact hc.summonTimestamper _ _ _ h
  · rcases except_error_of_bind h with h | ⟨req, h2, h⟩
    · exact hc.tspLoad _ _ h
    · rcases except_error_of_bind h with h | ⟨response, h3, h⟩
      · exact hc.buildTsa _ _ _ h1 _ _ h
      · simp [pure, Except.pure] at h

theorem serveCrl_http_404 (a : Animator) (now : Nat)
    (label : String) (crlNo : Option Nat) (extension : String) (st : Nat)
    (hc : ∀ l t n, NoHttpErr (a.pkiArch.serviceRegistry.getCrl l t n))
    (h : serveCrl a now label crlNo extension = .error (.httpException st)) :
    st = 404 := by
  have step : ∀ (x : Except PyExc Bytes), NoHttpErr x → ∀ pm : Bool × String,
      (x >>= fun crl =>
        Except.ok (⟨if pm.1 then Payload.pem "X509 CRL" crl else Payload.der crl,
                    pm.2, 200⟩ : Response)) = .error (.httpException st) → False := by
    intro x hx pm h
    rcases except_error_of_bind h with h | ⟨crl, h2, h⟩
    · exact hx _ h
    · simp at h
  unfold serveCrl at h
  split at h <;> split at h
  · rcases except_error_of_bind h with h | ⟨pm, h1, h⟩
    · simp [pure, Except.pure] at h
    · exact absurd h (step _ (hc _ _ _) pm)
  · split at h
    · rcases except_error_of_bind h with h | ⟨pm, h1, h⟩
      · simp [pure, Except.pure] at h
      · exact absurd h (step _ (hc _ _ _) pm)
    · rcases except_error_of_bind h with h | ⟨pm, h1, h⟩
      · exact (PyExc.httpException.inj (Except.error.inj h)).symm
      · exact absurd h1 (by simp)
  · rcases except_error_of_bind h with h | ⟨pm, h1, h⟩
    · simp [pure, Except.pure] at h
    · exact absurd h (step _ (hc _ _ _) pm)
  · split at h
    · rcases except_error_of_bind h with h | ⟨pm, h1, h⟩
      · simp [pure, Except.pure] at h
      · exact absurd h (step _ (hc _ _ _) pm)
    · rcases except_error_of_bind h with h | ⟨pm, h1, h⟩
      · exact (PyExc.httpException.inj (Except.error.inj h)).symm
      · exact absurd h1 (by simp)

theorem serveCert_http_404 (a : Animator) (label : String)
    (certLabel : Option String) (extension : String) (st : Nat)
    (hc : ∀ l cl, NoHttpErr (a.pkiArch.serviceRegistry.getCertFromRepo l cl))
    (h : serveCert a label certLabel extension = .error (.httpException st)) :
    st = 404 := by
  have step : ∀ (x : Except PyExc (Option Bytes)), NoHttpErr x → ∀ pm : Bool × String,
      (x >>= fun certOpt =>
        match certOpt with
        | none => Except.error (.httpException 404)
        | some cert =>
          Except.ok (⟨if pm.1 then Payload.pem "certificate" cert else Payload.der cert,
                      pm.2, 200⟩ : Response)) = .error (.httpException st) → st = 404 := by
    intro x hx pm h
    rcases except_error_of_bind h with h | ⟨certOpt, h2, h⟩
    · exact absurd h (hx _)
    · cases certOpt with
      | none => exact (PyExc.httpException.inj (Except.error.inj h)).symm
      | some cert => simp at h
  unfold serveCert at h
  split at h
  · rcases except_error_of_bind h with h | ⟨pm, h1, h⟩
    · simp [pure, Except.pure] at h
    · exact step _ (hc _ _) pm h
  · split at h
    · rcases except_error_of_bind h with h | ⟨pm, h1, h⟩
      · simp [pure, Except.pure] at h
      · exact step _ (hc _ _) pm h
    · rcases except_error_of_bind h with h | ⟨pm, h1, h⟩
      · exact (PyExc.httpException.inj (Except.error.inj h)).symm
      · exact absurd h1 (by simp)

theorem dispatchCore_of_match (codecs : Asn1Codecs) (a : Animator) (now : Nat)
    (request : Request) (ep : Endpoint) (values : List (String × PathValue))
    (h1 : routerMatch a.urlMap request.method request.path = .ok (ep, values)) :
    dispatchCore codecs a now request =
      match ep.serviceType with
      | .ocsp => serveOcspResponse codecs a now request ep.label
      | .tsa => serveTimestampResponse codecs a now request ep.label
      | .crlRepo =>
        match lookupValue values "crl_no", lookupValue values "extension" with
        | some .vNone, some (.vStr ext) => serveCrl a now ep.label none ext
        | some (.vInt no), some (.vStr ext) => serveCrl a now ep.label (some no) ext
        | _, _ => Except.error (.otherError "TypeError")
      | .certRepo =>
        match lookupValue values "cert_label", lookupValue values "extension" with
        | some .vNone, some (.vStr ext) => serveCert a ep.label none ext
        | some (.vStr cl), some (.vStr ext) => serveCert a ep.label (some cl) ext
        | _, _ => Except.error (.otherError "TypeError") := by
  unfold dispatchCore
  rw [h1]
  rfl

theorem dispatchCore_of_nomatch (codecs : Asn1Codecs) (a : Animator) (now : Nat)
    (request : Request) (e : PyExc)
    (h1 : routerMatch a.urlMap request.method request.path = .error e) :
    dispatchCore codecs a now request = .error e := by
  unfold dispatchCore
  rw [h1]
  rfl

theorem dispatchCore_ok_status (codecs : Asn1Codecs) (a : Animator) (now : Nat)
    (request : Request) (r : Response)
    (h : dispatchCore codecs a now request = .ok r) : r.status = 200 := by
  cases hm : routerMatch a.urlMap request.method request.path with
  | error e => rw [dispatchCore_of_nomatch _ _ _ _ _ hm] at h; simp at h
  | ok pv =>
    obtain ⟨ep, values⟩ := pv
    rw [dispatchCore_of_match _ _ _ _ _ _ hm] at h
    obtain ⟨st0, lbl⟩ := ep
    cases st0 <;> dsimp only at h
    case ocsp => exact serveOcsp_ok_status _ _ _ _ _ _ h
    case tsa => exact serveTsa_ok_status _ _ _ _ _ _ h
    case crlRepo =>
      split at h
      all_goals first
      | exact serveCrl_ok_status _ _ _ _ _ _ h
      | simp at h
    case certRepo =>
      split at h
      all_goals first
      | exact serveCert_ok_status _ _ _ _ _ h
      | simp at h

theorem dispatchCore_http_404 (codecs : Asn1Codecs) (a : Animator) (now : Nat)
    (request : Request) (st : Nat)
    (hc : CollabNoHttp a.pkiArch.serviceRegistry codecs)
    (h : dispatchCore codecs a now request = .error (.httpException st)) : st = 404 := by
  cases hm : routerMatch a.urlMap request.method request.path with
  | error e =>
    rw [dispatchCore_of_nomatch _ _ _ _ _ hm] at h
    have he := routerMatch_error_404 _ _ _ _ hm
    subst he
    exact PyExc.httpException.inj (Except.error.inj h).symm
  | ok pv =>
    obtain ⟨ep, values⟩ := pv
    rw [dispatchCore_of_match _ _ _ _ _ _ hm] at h
    obtain ⟨st0, lbl⟩ := ep
    cases st0 <;> dsimp only at h
    case ocsp => exact (serveOcsp_no_http _ _ _ _ _ _ hc h).elim
    case tsa => exact (serveTsa_no_http _ _ _ _ _ _ hc h).elim
    case crlRepo =>
      split at h
      all_goals first
      | exact serveCrl_http_404 _ _ _ _ _ _ hc.getCrl h
      | simp at h
    case certRepo =>
      split at h
      all_goals first
      | exact serveCert_http_404 _ _ _ _ _ hc.getCert h
      | simp at h

theorem collabNoHttp_regBase : CollabNoHttp regBase codecs0 := by
  refine ⟨?_, ?_, ?_, ?_, ?_, ?_, ?_, ?_⟩
  · exact fun l t st hcon => Except.noConfusion hcon
  · intro l t r hr b st hcon
    injection hr with hr
    subst hr
    exact Except.noConfusion hcon
  · exact fun l t st hcon => Except.noConfusion hcon
  · intro l t r hr b st hcon
    injection hr with hr
    subst hr
    exact Except.noConfusion hcon
  · exact fun l a n st hcon => Except.noConfusion hcon
  · exact fun l cl st hcon => Except.noConfusion hcon
  · exact fun b st hcon => Except.noConfusion hcon
  · exact fun b st hcon => Except.noConfusion hcon

/-- C1: for every request, `Animator.dispatch` translates handler outcomes
to HTTP responses exactly as follows: a domain object-not-found error
(`CertomancerObjectNotFoundError`) raised in the `try` block yields an
HTTP 404 response, logged at info level; a domain service error
(`CertomancerServiceError`) yields HTTP 500, logged at error level; a
recognized HTTP-level exception raised by the router or a handler is
returned with its status as-is (and nothing is logged). -/
theorem dispatch_translates_outcomes (codecs : Asn1Codecs) (a : Animator)
    (now : Nat) (request : Request) :
    (∀ msg, dispatchCore codecs a now request = .error (.certomancerObjectNotFound msg) →
      dispatch codecs a now request = (.ok notFoundResp, [(.info, msg)]))
    ∧ (∀ msg, dispatchCore codecs a now request = .error (.certomancerServiceError msg) →
      dispatch codecs a now request = (.ok internalServerErrorResp, [(.error, msg)]))
    ∧ (∀ status, dispatchCore codecs a now request = .error (.httpException status) →
      dispatch codecs a now request = (.ok (httpExcResp status), [])) := by
  refine ⟨fun msg h => ?_, fun msg h => ?_, fun status h => ?_⟩ <;>
    simp [dispatch, h]

/-- Witness for C1: the three translations observed on concrete fixtures —
a CRL collaborator raising not-found, one raising a service error, and an
unmatched route raising `NotFound` inside the `try` block. -/
theorem dispatch_translates_outcomes_witness :
    dispatch codecs0 (mkAnimator ⟨regObjNotFound⟩ (some 0)) 0 reqLatestCrl
      = (.ok notFoundResp, [(.info, "no such crl")])
    ∧ dispatch codecs0 (mkAnimator ⟨regSvcError⟩ (some 0)) 0 reqLatestCrl
      = (.ok internalServerErrorResp, [(.error, "signing failed")])
    ∧ dispatch codecs0 (mkAnimator ⟨regBase⟩ (some 0)) 0 reqLatestCrl
      = (.ok (httpExcResp 404), []) :=
  ⟨(dispatch_translates_outcomes codecs0 (mkAnimator ⟨regObjNotFound⟩ (some 0)) 0
      reqLatestCrl).1 "no such crl" (by decide),
   (dispatch_translates_outcomes codecs0 (mkAnimator ⟨regSvcError⟩ (some 0)) 0
      reqLatestCrl).2.1 "signing failed" (by decide),
   (dispatch_translates_outcomes codecs0 (mkAnimator ⟨regBase⟩ (some 0)) 0
      reqLatestCrl).2.2 404 (by decide)⟩

/-- C2 counterexample: a POST of malformed DER to a configured OCSP
endpoint, whose decoder fails with a `ValueError`, is NOT surfaced by
`dispatch` as an HTTP 500 response — the exception propagates out of
`dispatch` (the `except` clauses only catch the two Certomancer domain
errors and `HTTPException`). -/
theorem dispatch_decode_failure_escapes :
    dispatch codecsBad (mkAnimator ⟨regOcsp⟩ (some 0)) 0 reqOcspBad
      = (.error (.otherError "ValueError"), [])
    ∧ (dispatch codecsBad (mkAnimator ⟨regOcsp⟩ (some 0)) 0 reqOcspBad).1
      ≠ .ok internalServerErrorResp := by
  exact ⟨by decide, by decide⟩

/-- C2 (amended): a failure reaching the dispatch boundary other than the
recognized domain errors and HTTP-level exceptions — in particular a
decoding failure on malformed DER request bytes — propagates out of
`dispatch` unchanged (the surrounding WSGI server, not `dispatch`, is what
turns it into a 500), and `dispatch` logs nothing for it. -/
theorem dispatch_unrecognized_failure_propagates (codecs : Asn1Codecs)
    (a : Animator) (now : Nat) (request : Request) :
    ∀ msg, dispatchCore codecs a now request = .error (.otherError msg) →
      dispatch codecs a now request = (.error (.otherError msg), []) := by
  intro msg h
  simp [dispatch, h]

/-- Witness for the amended C2, on the malformed-OCSP-request fixture. -/
theorem dispatch_unrecognized_failure_propagates_witness :
    dispatch codecsBad (mkAnimator ⟨regOcsp⟩ none) 5 reqOcspBad
      = (.error (.otherError "ValueError"), []) :=
  dispatch_unrecognized_failure_propagates codecsBad (mkAnimator ⟨regOcsp⟩ none) 5
    reqOcspBad "ValueError" (by decide)

/-- C3: for every request whose collaborator and codec calls fail only in
the domain/plain-Python ways (never with a werkzeug `HTTPException`),
every response `Animator.dispatch` produces has status 200 (success with
typed body), 404 (unmatched route, unsupported extension, or unknown
domain object) or 500 (service construction failure); no other status
code is ever produced. -/
theorem dispatch_status_codes (codecs : Asn1Codecs) (a : Animator) (now : Nat)
    (request : Request) (resp : Response) (log : List (LogLevel × String))
    (hc : CollabNoHttp a.pkiArch.serviceRegistry codecs)
    (h : dispatch codecs a now request = (.ok resp, log)) :
    resp.status = 200 ∨ resp.status = 404 ∨ resp.status = 500 := by
  unfold dispatch at h
  cases hd : dispatchCore codecs a now request with
  | ok r =>
    rw [hd] at h
    injection h with h1 h2
    injection h1 with h1
    subst h1
    exact Or.inl (dispatchCore_ok_status _ _ _ _ _ hd)
  | error e =>
    rw [hd] at h
    cases e with
    | certomancerObjectNotFound msg =>
      injection h with h1 h2
      injection h1 with h1
      subst h1
      exact Or.inr (Or.inl rfl)
    | certomancerServiceError msg =>
      injection h with h1 h2
      injection h1 with h1
      subst h1
      exact Or.inr (Or.inr rfl)
    | httpException st =>
      have h404 := dispatchCore_http_404 _ _ _ _ _ hc hd
      subst h404
      injection h with h1 h2
      injection h1 with h1
      subst h1
      exact Or.inr (Or.inl rfl)
    | otherError msg =>
      injection h with h1 h2
      exact Except.noConfusion h1

/-- Witness for C3: the unmatched-route fixture produces the 404 response,
whose status is among the allowed three. -/
theorem dispatch_status_codes_witness :
    (httpExcResp 404).status = 200 ∨ (httpExcResp 404).status = 404
      ∨ (httpExcResp 404).status = 500 :=
  dispatch_status_codes codecs0 (mkAnimator ⟨regBase⟩ (some 0)) 0 reqLatestCrl
    (httpExcResp 404) [] collabNoHttp_regBase (by decide)

theorem serveOcsp_fixed_time (codecs : Asn1Codecs) (a : Animator) (t n₁ n₂ : Nat)
    (request : Request) (label : String) (h : a.fixedTime = some t) :
    serveOcspResponse codecs a n₁ request label
      = serveOcspResponse codecs a n₂ request label := by
  simp only [serveOcspResponse, atTime, h, Option.getD_some]

theorem serveTsa_fixed_time (codecs : Asn1Codecs) (a : Animator) (t n₁ n₂ : Nat)
    (request : Request) (label : String) (h : a.fixedTime = some t) :
    serveTimestampResponse codecs a n₁ request label
      = serveTimestampResponse codecs a n₂ request label := by
  simp only [serveTimestampResponse, atTime, h, Option.getD_some]

theorem serveCrl_fixed_time (a : Animator) (t n₁ n₂ : Nat) (label : String)
    (crlNo : Option Nat) (extension : String) (h : a.fixedTime = some t) :
    serveCrl a n₁ label crlNo extension = serveCrl a n₂ label crlNo extension := by
  simp only [serveCrl, atTime, h, Option.getD_some]

theorem dispatchCore_fixed_time (codecs : Asn1Codecs) (a : Animator)
    (t n₁ n₂ : Nat) (request : Request) (h : a.fixedTime = some t) :
    dispatchCore codecs a n₁ request = dispatchCore codecs a n₂ request := by
  cases hm : routerMatch a.urlMap request.method request.path with
  | error e =>
    rw [dispatchCore_of_nomatch _ _ _ _ _ hm, dispatchCore_of_nomatch _ _ _ _ _ hm]
  | ok pv =>
    obtain ⟨ep, values⟩ := pv
    rw [dispatchCore_of_match _ _ _ _ _ _ hm, dispatchCore_of_match _ _ _ _ _ _ hm]
    obtain ⟨st0, lbl⟩ := ep
    cases st0 <;> dsimp only
    case ocsp => exact serveOcsp_fixed_time _ _ _ _ _ _ _ h
    case tsa => exact serveTsa_fixed_time _ _ _ _ _ _ _ h
    case crlRepo =>
      split
      all_goals first
      | rfl
      | exact serveCrl_fixed_time _ _ _ _ _ _ _ h

/-- C8: for every pair of identical requests dispatched against an
`Animator` constructed with a fixed evaluation time and the same
collaborator, the responses are identical — in the model, the result of
`dispatch` does not depend on the wall-clock `now` parameter once
`fixed_time` is set, so two runs agree byte for byte. -/
theorem dispatch_fixed_time_deterministic (codecs : Asn1Codecs)
    (arch : PKIArchitecture) (t : Nat) (now₁ now₂ : Nat) (request : Request) :
    dispatch codecs (mkAnimator arch (some t)) now₁ request
      = dispatch codecs (mkAnimator arch (some t)) now₂ request := by
  unfold dispatch
  rw [dispatchCore_fixed_time codecs (mkAnimator arch (some t)) t now₁ now₂ request rfl]

/-- C6: for every CRL request, `serve_crl` maps extension `crl` to the
DER-encoded CRL with content type `application/pkix-crl`, maps extension
`crl.pem` to the same bytes PEM-armored with the literal header label
`X509 CRL` and content type `application/x-pem-file`, and raises
`NotFound` (HTTP 404) for every other extension value. -/
theorem serveCrl_extension_mapping (a : Animator) (now : Nat) (label : String)
    (crlNo : Option Nat) (bytes : Bytes)
    (h : a.pkiArch.serviceRegistry.getCrl label
          (match crlNo with
           | some _ => none
           | none => some (atTime a.fixedTime now))
          crlNo = .ok bytes) :
    serveCrl a now label crlNo "crl" = .ok ⟨.der bytes, "application/pkix-crl", 200⟩
    ∧ serveCrl a now label crlNo "crl.pem"
        = .ok ⟨.pem "X509 CRL" bytes, "application/x-pem-file", 200⟩
    ∧ ∀ ext, ext ≠ "crl" → ext ≠ "crl.pem" →
        serveCrl a now label crlNo ext = .error (.httpException 404) := by
  refine ⟨?_, ?_, fun ext h1 h2 => ?_⟩
  · cases crlNo <;>
      (dsimp only at h
       unfold serveCrl
       have e1 : (("crl" : String) = "crl.pem") = False := by simp
       have e2 : (("crl" : String) = "crl") = True := by simp
       simp only [e1, e2, if_false, if_true]
       simp [Bind.bind, Except.bind, pure, Except.pure, h])
  · cases crlNo <;>
      (dsimp only at h
       unfold serveCrl
       have e1 : (("crl.pem" : String) = "crl.pem") = True := by simp
       simp only [e1, if_true]
       simp [Bind.bind, Except.bind, pure, Except.pure, h])
  · unfold serveCrl
    simp only [h1, h2, if_neg, if_false, reduceIte]
    simp [Bind.bind, Except.bind]

/-- Witness for C6, on the all-ok CRL fixture: the three mappings at the
concrete label `main`, both with and without a CRL number present. -/
theorem serveCrl_extension_mapping_witness :
    serveCrl (mkAnimator ⟨regCrlOk⟩ (some 7)) 0 "main" none "crl"
      = .ok ⟨.der [3], "application/pkix-crl", 200⟩
    ∧ serveCrl (mkAnimator ⟨regCrlOk⟩ (some 7)) 0 "main" (some 12) "crl.pem"
      = .ok ⟨.pem "X509 CRL" [3], "application/x-pem-file", 200⟩
    ∧ serveCrl (mkAnimator ⟨regCrlOk⟩ (some 7)) 0 "main" none "txt"
      = .error (.httpException 404) :=
  ⟨(serveCrl_extension_mapping (mkAnimator ⟨regCrlOk⟩ (some 7)) 0 "main" none [3]
      (by decide)).1,
   (serveCrl_extension_mapping (mkAnimator ⟨regCrlOk⟩ (some 7)) 0 "main" (some 12) [3]
      (by decide)).2.1,
   (serveCrl_extension_mapping (mkAnimator ⟨regCrlOk⟩ (some 7)) 0 "main" none [3]
      (by decide)).2.2 "txt" (by decide) (by decide)⟩

/-- C7: for every certificate request, `serve_cert` maps extension `crt`
to DER with content type `application/pkix-cert`, maps extension
`cert.pem` to the bytes PEM-armored with the literal header label
`certificate` and content type `application/x-pem-file`, raises `NotFound`
(404) for any other extension, and when the collaborator reports the
certificate as a null result the handler itself raises `NotFound` (404)
rather than returning a body. -/
theorem serveCert_extension_mapping (a : Animator) (label : String)
    (certLabel : Option String) :
    (∀ bytes, a.pkiArch.serviceRegistry.getCertFromRepo label certLabel = .ok (some bytes) →
      serveCert a label certLabel "crt" = .ok ⟨.der bytes, "application/pkix-cert", 200⟩
      ∧ serveCert a label certLabel "cert.pem"
          = .ok ⟨.pem "certificate" bytes, "application/x-pem-file", 200⟩)
    ∧ (a.pkiArch.serviceRegistry.getCertFromRepo label certLabel = .ok none →
      serveCert a label certLabel "crt" = .error (.httpException 404)
      ∧ serveCert a label certLabel "cert.pem" = .error (.httpException 404))
    ∧ ∀ ext, ext ≠ "crt" → ext ≠ "cert.pem" →
        serveCert a label certLabel ext = .error (.httpException 404) := by
  refine ⟨fun bytes h => ⟨?_, ?_⟩, fun h => ⟨?_, ?_⟩, fun ext h1 h2 => ?_⟩
  · unfold serveCert
    have e1 : (("crt" : String) = "cert.pem") = False := by simp
    have e2 : (("crt" : String) = "crt") = True := by simp
    simp only [e1, e2, if_false, if_true]
    simp [Bind.bind, Except.bind, pure, Except.pure, h]
  · unfold serveCert
    have e1 : (("cert.pem" : String) = "cert.pem") = True := by simp
    simp only [e1, if_true]
    simp [Bind.bind, Except.bind, pure, Except.pure, h]
  · unfold serveCert
    have e1 : (("crt" : String) = "cert.pem") = False := by simp
    have e2 : (("crt" : String) = "crt") = True := by simp
    simp only [e1, e2, if_false, if_true]
    simp [Bind.bind, Except.bind, pure, Except.pure, h]
  · unfold serveCert
    have e1 : (("cert.pem" : String) = "cert.pem") = True := by simp
    simp only [e1, if_true]
    simp [Bind.bind, Except.bind, pure, Except.pure, h]
  · unfold serveCert
    simp only [h1, h2, if_neg, if_false, reduceIte]
    simp [Bind.bind, Except.bind]

/-- Witness for C7: the DER/PEM mappings on the all-ok fixture, the
null-result 404 on the none-returning fixture, and a bogus extension. -/
theorem serveCert_extension_mapping_witness :
    serveCert (mkAnimator ⟨regBase⟩ none) "r" none "crt"
      = .ok ⟨.der [4], "application/pkix-cert", 200⟩
    ∧ serveCert (mkAnimator ⟨regBase⟩ none) "r" (some "alice") "cert.pem"
      = .ok ⟨.pem "certificate" [4], "application/x-pem-file", 200⟩
    ∧ serveCert (mkAnimator ⟨regCertNone⟩ none) "r" (some "ghost") "crt"
      = .error (.httpException 404)
    ∧ serveCert (mkAnimator ⟨regBase⟩ none) "r" none "pem"
      = .error (.httpException 404) :=
  ⟨((serveCert_extension_mapping (mkAnimator ⟨regBase⟩ none) "r" none).1 [4]
      (by decide)).1,
   ((serveCert_extension_mapping (mkAnimator ⟨regBase⟩ none) "r" (some "alice")).1 [4]
      (by decide)).2,
   ((serveCert_extension_mapping (mkAnimator ⟨regCertNone⟩ none) "r" (some "ghost")).2.1
      (by decide)).1,
   (serveCert_extension_mapping (mkAnimator ⟨regBase⟩ none) "r" none).2.2 "pem"
      (by decide) (by decide)⟩

/-- C10: in both the CRL handler and the certificate handler the extension
is validated before the PKI-data collaborator is consulted — for every
animator (hence for every possible collaborator) an unrecognized extension
yields `NotFound` (404), the result not depending on the collaborator in
any way, so no collaborator call can influence (or be observed in) the
outcome. -/
theorem handlers_validate_extension_first (a : Animator) (now : Nat)
    (label : String) (crlNo : Option Nat) (certLabel : Option String)
    (ext : String) :
    (ext ≠ "crl" → ext ≠ "crl.pem" →
      serveCrl a now label crlNo ext = .error (.httpException 404))
    ∧ (ext ≠ "crt" → ext ≠ "cert.pem" →
      serveCert a label certLabel ext = .error (.httpException 404)) := by
  constructor
  · intro h1 h2
    unfold serveCrl
    simp only [h1, h2, if_neg, if_false, reduceIte]
    simp [Bind.bind, Except.bind]
  · intro h1 h2
    unfold serveCert
    simp only [h1, h2, if_neg, if_false, reduceIte]
    simp [Bind.bind, Except.bind]

/-- Witness for C10: a `.pem` request against fixtures whose collaborators
would happily return data is still 404, in both handlers. -/
theorem handlers_validate_extension_first_witness :
    serveCrl (mkAnimator ⟨regCrlOk⟩ (some 3)) 0 "main" none "pem"
      = .error (.httpException 404)
    ∧ serveCert (mkAnimator ⟨regCrlOk⟩ (some 3)) "r" (some "alice") "pem"
      = .error (.httpException 404) :=
  ⟨(handlers_validate_extension_first (mkAnimator ⟨regCrlOk⟩ (some 3)) 0 "main"
      none (some "alice") "pem").1 (by decide) (by decide),
   (handlers_validate_extension_first (mkAnimator ⟨regCrlOk⟩ (some 3)) 0 "main"
      none (some "alice") "pem").2 (by decide) (by decide)⟩

/-- C9: `LazyAnimator._load` initializes the bound `Animator` at most
once: if the animator is already present, `_load` returns the state
unchanged (no reconstruction); after any successful `_load` the state is a
fixed point of `_load` — so calling `_load` twice is equivalent to calling
it once, and every later caller observes the same stored instance. -/
theorem lazyAnimator_load_once (ops : BootstrapOps) (env : List (String × String))
    (la : LazyAnimator) :
    (∀ a, la.animator = some a → LazyAnimator.load ops env la = .ok la)
    ∧ (∀ la', LazyAnimator.load ops env la = .ok la' →
        LazyAnimator.load ops env la' = .ok la' ∧ la'.animator.isSome = true) := by
  constructor
  · intro a ha
    unfold LazyAnimator.load
    rw [ha]
  · intro la' h
    cases hla : la.animator with
    | some a =>
      unfold LazyAnimator.load at h
      rw [hla] at h
      injection h with h
      subst h
      refine ⟨?_, by rw [hla]; rfl⟩
      unfold LazyAnimator.load
      rw [hla]
    | none =>
      unfold LazyAnimator.load at h
      rw [hla] at h
      obtain ⟨cfgFile, h1, h⟩ := except_ok_of_bind h
      obtain ⟨keyDir, h2, h⟩ := except_ok_of_bind h
      obtain ⟨arch, h3, h⟩ := except_ok_of_bind h
      obtain ⟨cfg, h4, h⟩ := except_ok_of_bind h
      obtain ⟨pkiArch, h5, h⟩ := except_ok_of_bind h
      simp only [pure, Except.pure, Except.ok.injEq] at h
      subst h
      exact ⟨rfl, rfl⟩

/-- Witness for C9: a concrete first `_load` from the empty state under
`opsOk`/`envOk` stores `laLoaded`, and `_load` on that state is the
identity with the animator present. -/
theorem lazyAnimator_load_once_witness :
    LazyAnimator.load opsOk envOk laLoaded = .ok laLoaded
    ∧ laLoaded.animator.isSome = true :=
  (lazyAnimator_load_once opsOk envOk ⟨none⟩).2 laLoaded rfl

theorem countP_crl_flatMap (l : List ServiceInfo) :
    (l.flatMap crlRepoRules).countP
      (fun r => decide (r.endpoint.serviceType = ServiceType.crlRepo)) = 2 * l.length := by
  induction l with
  | nil => rfl
  | cons x xs ih =>
    simp only [List.flatMap_cons, List.countP_append, ih, crlRepoRules,
      ServiceType.endpoint, List.length_cons]
    simp [List.countP_cons]
    ring

theorem countP_cert_flatMap (l : List CertRepoInfo) :
    (l.flatMap certRepoRules).countP
      (fun r => decide (r.endpoint.serviceType = ServiceType.crlRepo)) = 0 := by
  induction l with
  | nil => rfl
  | cons x xs ih =>
    simp only [List.flatMap_cons, List.countP_append, ih, certRepoRules,
      ServiceType.endpoint]
    cases hp : x.publishIssuedCerts <;> simp [List.countP_cons]

/-- C4: for every configured CRL repository the route builder emits exactly
two GET route patterns — the latest-by-time pattern with `crl_no`
defaulted to `None` and the archive-by-integer-number pattern capturing
`crl_no` — and both are bound to the same `EndpointDescriptor`
`(CRL_REPO, repo.label)`, so the presence or absence of `crl_no`
disambiguates latest versus archived. -/
theorem service_rules_crl_two_rules (reg : ServiceRegistry) :
    ((service_rules reg).countP
      (fun r => decide (r.endpoint.serviceType = ServiceType.crlRepo)))
        = 2 * reg.crlRepos.length
    ∧ ∀ repo ∈ reg.crlRepos,
      ({ pattern := [.lit (repo.internalUrl ++ "/latest."), .conv .default "extension"],
         endpoint := ⟨.crlRepo, repo.label⟩,
         methods := ["GET"],
         defaults := [("crl_no", .vNone)] } : Rule) ∈ service_rules reg
      ∧ ({ pattern := [.lit (repo.internalUrl ++ "/archive-"), .conv .int "crl_no",
                       .lit ".", .conv .default "extension"],
           endpoint := ⟨.crlRepo, repo.label⟩,
           methods := ["GET"],
           defaults := [] } : Rule) ∈ service_rules reg := by
  constructor
  · unfold service_rules
    simp only [List.countP_append, countP_crl_flatMap, countP_cert_flatMap,
      List.countP_map]
    simp [Function.comp, ServiceType.endpoint]
  · intro repo hrepo
    constructor
    · unfold service_rules
      refine List.mem_append.mpr (Or.inl (List.mem_append.mpr (Or.inr ?_)))
      exact List.mem_flatMap.mpr ⟨repo, hrepo, by simp [crlRepoRules, ServiceType.endpoint]⟩
    · unfold service_rules
      refine List.mem_append.mpr (Or.inl (List.mem_append.mpr (Or.inr ?_)))
      exact List.mem_flatMap.mpr ⟨repo, hrepo, by simp [crlRepoRules, ServiceType.endpoint]⟩

/-- Witness for C4 on the one-CRL-repository fixture: exactly two
CRL-repo rules, and both concrete rules present with the same endpoint. -/
theorem service_rules_crl_two_rules_witness :
    ((service_rules regCrlOk).countP
      (fun r => decide (r.endpoint.serviceType = ServiceType.crlRepo))) = 2
    ∧ ({ pattern := [.lit (crlRepoMain.internalUrl ++ "/latest."),
                     .conv .default "extension"],
         endpoint := ⟨.crlRepo, crlRepoMain.label⟩,
         methods := ["GET"],
         defaults := [("crl_no", .vNone)] } : Rule) ∈ service_rules regCrlOk
    ∧ ({ pattern := [.lit (crlRepoMain.internalUrl ++ "/archive-"), .conv .int "crl_no",
                     .lit ".", .conv .default "extension"],
         endpoint := ⟨.crlRepo, crlRepoMain.label⟩,
         methods := ["GET"],
         defaults := [] } : Rule) ∈ service_rules regCrlOk :=
  ⟨by simpa using (service_rules_crl_two_rules regCrlOk).1,
   ((service_rules_crl_two_rules regCrlOk).2 crlRepoMain (by decide)).1,
   ((service_rules_crl_two_rules regCrlOk).2 crlRepoMain (by decide)).2⟩

theorem toList_append (s t : String) : (s ++ t).toList = s.toList ++ t.toList := by
  simp [String.toList]

theorem isPrefixOf_append_cancel (u a b : List Char) :
    (u ++ a).isPrefixOf (u ++ b) = a.isPrefixOf b := by
  induction u with
  | nil => rfl
  | cons c u ih => simp [List.isPrefixOf, ih]

theorem ca_pattern_no_issued_match (repo : CertRepoInfo) (label : String) :
    ((repo.internalUrl ++ "/ca.").toList.isPrefixOf
      ((repo.internalUrl ++ "/issued/" ++ label ++ ".crt").toList)) = false := by
  rw [toList_append, toList_append, toList_append, toList_append]
  rw [List.append_assoc, List.append_assoc]
  rw [isPrefixOf_append_cancel]
  have h1 : "/ca.".toList = ['/', 'c', 'a', '.'] := by decide
  have h2 : "/issued/".toList = ['/', 'i', 's', 's', 'u', 'e', 'd', '/'] := by decide
  rw [h1, h2]
  simp [List.isPrefixOf]

/-- C5: for every configured certificate repository the route builder
emits the CA-certificate route with `cert_label` defaulted to `None`, and
emits the issued-certificate-by-label route if and only if the
repository's publish-issued flag is set; consequently a GET for
`issued/<label>.crt` on a repository with publishing disabled yields HTTP
404 for every label, whether or not the label exists. -/
theorem cert_repo_routes (reg : ServiceRegistry) :
    (∀ repo ∈ reg.certRepos,
      ({ pattern := [.lit (repo.internalUrl ++ "/ca."), .conv .default "extension"],
         endpoint := ⟨.certRepo, repo.label⟩,
         methods := ["GET"],
         defaults := [("cert_label", .vNone)] } : Rule) ∈ service_rules reg)
    ∧ (∀ repo : CertRepoInfo,
        (({ pattern := [.lit (repo.internalUrl ++ "/issued/"), .conv .label "cert_label",
                        .lit ".", .conv .default "extension"],
            endpoint := ⟨.certRepo, repo.label⟩,
            methods := ["GET"],
            defaults := [] } : Rule) ∈ certRepoRules repo)
          ↔ repo.publishIssuedCerts = true)
    ∧ ∀ (repo : CertRepoInfo) (label : String) (codecs : Asn1Codecs)
        (fixed : Option Nat) (now : Nat) (body : Bytes),
        repo.publishIssuedCerts = false →
        reg.ocspResponders = [] → reg.timeStampingServices = [] →
        reg.crlRepos = [] → reg.certRepos = [repo] →
        dispatch codecs (mkAnimator ⟨reg⟩ fixed) now
          ⟨"GET", repo.internalUrl ++ "/issued/" ++ label ++ ".crt", body⟩
          = (.ok (httpExcResp 404), []) := by
  refine ⟨fun repo hrepo => ?_, fun repo => ?_, ?_⟩
  · unfold service_rules
    refine List.mem_append.mpr (Or.inr ?_)
    exact List.mem_flatMap.mpr ⟨repo, hrepo, by simp [certRepoRules, ServiceType.endpoint]⟩
  · cases hp : repo.publishIssuedCerts <;>
      simp [certRepoRules, ServiceType.endpoint, hp]
  · intro repo label codecs fixed now body hp h1 h2 h3 h4
    have hrules : service_rules reg =
        [{ pattern := [.lit (repo.internalUrl ++ "/ca."), .conv .default "extension"],
           endpoint := ⟨.certRepo, repo.label⟩,
           methods := ["GET"],
           defaults := [("cert_label", .vNone)] }] := by
      unfold service_rules
      rw [h1, h2, h3, h4]
      simp [certRepoRules, hp, ServiceType.endpoint]
    have hmatch : routerMatch (mkAnimator ⟨reg⟩ fixed).urlMap "GET"
        (repo.internalUrl ++ "/issued/" ++ label ++ ".crt")
          = .error (.httpException 404) := by
      show routerMatch (service_rules reg) "GET"
        (repo.internalUrl ++ "/issued/" ++ label ++ ".crt") = .error (.httpException 404)
      rw [hrules]
      simp [routerMatch, matchToks, ca_pattern_no_issued_match repo label]
    unfold dispatch
    rw [dispatchCore_of_nomatch _ _ _ _ _ hmatch]

/-- Witness for C5, on the non-publishing certificate-repository fixture:
the CA rule is emitted, the issued rule is not (iff with the cleared
flag), and a GET for an issued certificate label yields the 404 page. -/
theorem cert_repo_routes_witness :
    ({ pattern := [.lit (certRepoNoPub.internalUrl ++ "/ca."), .conv .default "extension"],
       endpoint := ⟨.certRepo, certRepoNoPub.label⟩,
       methods := ["GET"],
       defaults := [("cert_label", .vNone)] } : Rule) ∈ service_rules regCertNoPub
    ∧ (({ pattern := [.lit (certRepoNoPub.internalUrl ++ "/issued/"),
                      .conv .label "cert_label", .lit ".", .conv .default "extension"],
          endpoint := ⟨.certRepo, certRepoNoPub.label⟩,
          methods := ["GET"],
          defaults := [] } : Rule) ∈ certRepoRules certRepoNoPub
        ↔ certRepoNoPub.publishIssuedCerts = true)
    ∧ dispatch codecs0 (mkAnimator ⟨regCertNoPub⟩ none) 0
        ⟨"GET", certRepoNoPub.internalUrl ++ "/issued/" ++ "alice" ++ ".crt", []⟩
        = (.ok (httpExcResp 404), []) :=
  ⟨(cert_repo_routes regCertNoPub).1 certRepoNoPub (by decide),
   (cert_repo_routes regCertNoPub).2.1 certRepoNoPub,
   (cert_repo_routes regCertNoPub).2.2 certRepoNoPub "alice" codecs0 none 0 []
     (by decide) rfl rfl rfl rfl⟩

end Certomancer
